import Mathlib

/-!
Verification development for the Tor service lifecycle manager and SOCKS-routed
HTTP client exposed by `src/tor-ffi/tor_ffi.h` and `src/tor/tor_ffi.h`.

The repository ships only the C-linkage declarations (structs and function
signatures); the implementation behind them is not part of the supplied
sources.  The boundary struct shapes below are embedded directly from the
headers; every behavioural definition is modelled from the specification, as
marked by its doc comment.
-/

namespace TorFFI

/-- Modelled from the spec: the `ServiceStatus` enumeration of spec section 3,
`{NotStarted, Bootstrapping, Running, Failed, Stopped}`, in the order listed
there.  The implementation behind `get_service_status` is missing from the
sources; only the declaration `int get_service_status()` is shown. -/
inductive ServiceStatus where
  | NotStarted
  | Bootstrapping
  | Running
  | Failed
  | Stopped
  deriving DecidableEq, Repr

/-- Modelled from the spec: the internal error taxonomy of spec section 7. -/
inductive ErrorKind where
  | AlreadyInitialized
  | AlreadyRunningConflict
  | BootstrapTimeout
  | BootstrapFailed
  | ServiceNotReady
  | UnknownAddress
  | ProxyUnavailable
  | RequestTimeout
  | TransportError
  | MalformedHeaders
  deriving DecidableEq, Repr

/-- Modelled from the spec: `ServiceConfig` of section 3 — data directory,
SOCKS port and timeout supplied to an init call.  (The optional onion key is
carried separately by the start-variant call, matching the header.) -/
structure ServiceConfig where
  dataDir : String
  socksPort : Nat
  timeoutMs : Nat
  deriving DecidableEq, Repr

/-- Modelled from the spec: a `HiddenService` record of the registry —
onion address, listening port, target port and the source key bytes. -/
structure HiddenService where
  address : String
  port : Nat
  targetPort : Nat
  keyBytes : List Nat
  deriving DecidableEq, Repr

/-- Modelled from the spec: the Supervisor-owned state — the coarse status,
the active configuration, the hidden-service registry, the count of SOCKS
listeners held, and the key-generation state used for fresh onion keys.
The implementation owning this state is missing from the sources. -/
structure SupervisorState where
  status : ServiceStatus
  config : Option ServiceConfig
  registry : List HiddenService
  listeners : Nat
  keySeed : Nat
  deriving DecidableEq, Repr

/-- Modelled from the spec: the stable small integer encoding of
`ServiceStatus`, following the listing order of spec section 3. -/
def statusCode : ServiceStatus → Int
  | .NotStarted => 0
  | .Bootstrapping => 1
  | .Running => 2
  | .Failed => 3
  | .Stopped => 4

/-- Modelled from the spec: `get_service_status` — a pure projection of the
Supervisor state into the integer encoding; no side effects, no I/O.  The
header declares only `int get_service_status()`. -/
def get_service_status (s : SupervisorState) : Int :=
  statusCode s.status

/-- The `ServiceStatus` values in the order spec section 3 lists them. -/
def statusListing : List ServiceStatus :=
  [.NotStarted, .Bootstrapping, .Running, .Failed, .Stopped]

/-- Modelled from the spec: the events driving the lifecycle state machine of
spec section 4.1 — init requested, proxy ready, shutdown, fatal internal
error. -/
inductive TorEvent where
  | initRequested
  | proxyReady
  | shutdownReq
  | fatalError
  deriving DecidableEq, Repr

/-- Modelled from the spec: the lifecycle transition function of spec
section 4.1.  `none` means the event produces no transition from that state
(in particular `Failed` is terminal for the current instance). -/
def stepFn : ServiceStatus → TorEvent → Option ServiceStatus
  | .NotStarted, .initRequested => some .Bootstrapping
  | .Bootstrapping, .proxyReady => some .Running
  | .Running, .shutdownReq => some .Stopped
  | .Bootstrapping, .fatalError => some .Failed
  | .Running, .fatalError => some .Failed
  | .Stopped, .initRequested => some .Bootstrapping
  | _, _ => none

/-- The list of statuses visited by running `stepFn` over a list of events
from a start status; `none` when some event has no transition. -/
def runTrace (st : ServiceStatus) : List TorEvent → Option (List ServiceStatus)
  | [] => some []
  | e :: es =>
    match stepFn st e with
    | none => none
    | some st2 => (runTrace st2 es).map (fun l => st2 :: l)

/-- Modelled from the spec: the environment outcome of a bootstrap attempt —
the proxy becomes ready within the timeout, the wait times out, or the
bootstrap fails irrecoverably. -/
inductive BootOutcome where
  | ready
  | timedOut
  | failedBoot
  deriving DecidableEq, Repr

/-- Modelled from the spec: two configurations are compatible when they agree
on the SOCKS port and the data directory (spec section 4.1: incompatible
means a different port or data dir). -/
def compatibleCfg (a b : ServiceConfig) : Bool :=
  a.socksPort == b.socksPort && a.dataDir == b.dataDir

/-- Modelled from the spec: the Supervisor contract `initOrStart` of spec
section 4.1, whose implementation is missing from the sources.  If already
Running with a compatible configuration it returns success immediately and
changes nothing; if Running with an incompatible configuration it fails with
`AlreadyRunningConflict` leaving the service untouched; from NotStarted or
Stopped it bootstraps, acquiring the single SOCKS listener on success;
Failed is terminal for the instance. -/
def initOrStart (cfg : ServiceConfig) (outcome : BootOutcome)
    (s : SupervisorState) : Except ErrorKind Unit × SupervisorState :=
  match s.status with
  | .Running =>
    match s.config with
    | some c =>
      if compatibleCfg c cfg then (.ok (), s)
      else (.error .AlreadyRunningConflict, s)
    | none => (.error .AlreadyRunningConflict, s)
  | .Failed => (.error .BootstrapFailed, s)
  | .Bootstrapping => (.error .ServiceNotReady, s)
  | _ =>
    match outcome with
    | .ready =>
      (.ok (), { s with status := .Running, config := some cfg, listeners := 1 })
    | .timedOut =>
      (.error .BootstrapTimeout, { s with status := .Failed })
    | .failedBoot =>
      (.error .BootstrapFailed, { s with status := .Failed })

/-- Modelled from the spec: the boundary call `init_tor_service` declared in
the header as `bool init_tor_service(unsigned short, const char*, unsigned
long)`; it wraps the Supervisor contract and collapses the result to the
success flag. -/
def init_tor_service (socks_port : Nat) (data_dir : String) (timeout_ms : Nat)
    (outcome : BootOutcome) (s : SupervisorState) : Bool × SupervisorState :=
  match initOrStart ⟨data_dir, socks_port, timeout_ms⟩ outcome s with
  | (.ok (), s2) => (true, s2)
  | (.error _, s2) => (false, s2)

/-- Modelled from the spec: deterministic derivation of the onion address
from the key bytes.  The actual algorithm is a pluggable dependency of the
underlying Tor engine (spec section 9); only that it is a pure function of
the key matters here, so a stand-in injective encoding is used. -/
def deriveOnionAddress (key : List Nat) : String :=
  String.intercalate "-" (key.map toString) ++ ".onion"

/-- Modelled from the spec: fresh onion key generation from the instance key
seed; the engine generates a fresh key pair when no key is supplied. -/
def generateKey (seed : Nat) : List Nat :=
  [seed, seed + 1]

/-- Modelled from the spec: the opaque control metadata string returned for
caller bookkeeping; passed through verbatim, never interpreted. -/
def controlString (address : String) : String :=
  "control/" ++ address

/-- Modelled from the spec: internal result of a hidden-service creation,
before boundary marshaling flattens it. -/
inductive HiddenServiceResult where
  | ok (address : String) (control : String)
  | err (kind : ErrorKind)
  deriving DecidableEq, Repr

/-- Modelled from the spec: the Hidden Service Registry `create` operation of
spec section 4.2, whose implementation is missing from the sources.
Requires status Running (otherwise `ServiceNotReady`); with a supplied key
uses it, otherwise generates a fresh key from the instance seed; derives the
address deterministically from the key and registers the mapping before
returning success. -/
def createHiddenService (port target_port : Nat) (key_data : List Nat)
    (has_key : Bool) (s : SupervisorState) :
    HiddenServiceResult × SupervisorState :=
  if s.status = .Running then
    let key := if has_key then key_data else generateKey s.keySeed
    let addr := deriveOnionAddress key
    let entry : HiddenService := ⟨addr, port, target_port, key⟩
    let reg :=
      if s.registry.any (fun h => h.address == addr) then s.registry
      else entry :: s.registry
    let seed := if has_key then s.keySeed else s.keySeed + 1
    (.ok addr (controlString addr), { s with registry := reg, keySeed := seed })
  else
    (.err .ServiceNotReady, s)

/-- Embedded from `src/tor-ffi/tor_ffi.h` lines 12-16: the
`TOR_HiddenServiceResponse` struct carries exactly a success flag, an onion
address string and a control string — it has no error-message field.  A
`char*` field that may be left null is embedded as `Option String`. -/
structure TOR_HiddenServiceResponse where
  is_success : Bool
  onion_address : Option String
  control : Option String
  deriving DecidableEq, Repr

/-- Embedded from `src/tor-ffi/tor_ffi.h` lines 18-23: the
`TOR_StartTorResponse` struct — success flag, onion address, control string,
and additionally an error-message string. -/
structure TOR_StartTorResponse where
  is_success : Bool
  onion_address : Option String
  control : Option String
  error_message : Option String
  deriving DecidableEq, Repr

/-- Embedded from `src/tor-ffi/tor_ffi.h` lines 25-29: the `TOR_CHttpResponse`
struct — HTTP status code (`unsigned short`), body string, error string. -/
structure TOR_CHttpResponse where
  status_code : Nat
  body : Option String
  error : Option String
  deriving DecidableEq, Repr

/-- Modelled from the spec: a human-readable description of an error kind,
used by the marshaling layer when populating boundary error strings. -/
def kindText : ErrorKind → String
  | .AlreadyInitialized => "already initialized"
  | .AlreadyRunningConflict => "already running with conflicting configuration"
  | .BootstrapTimeout => "bootstrap timed out"
  | .BootstrapFailed => "bootstrap failed"
  | .ServiceNotReady => "service not ready"
  | .UnknownAddress => "unknown hidden service address"
  | .ProxyUnavailable => "proxy unavailable"
  | .RequestTimeout => "request timed out"
  | .TransportError => "transport error"
  | .MalformedHeaders => "malformed headers"

/-- Modelled from the spec: boundary marshaling of a hidden-service result
into the flat `TOR_HiddenServiceResponse` struct.  The struct declares no
error-message field, so a failure populates nothing beyond the cleared
success flag. -/
def marshalHiddenService : HiddenServiceResult → TOR_HiddenServiceResponse
  | .ok addr ctrl => ⟨true, some addr, some ctrl⟩
  | .err _ => ⟨false, none, none⟩

/-- Modelled from the spec: the boundary call `create_hidden_service`
declared in the header; runs the registry `create` operation and flattens
the result. -/
def create_hidden_service (port target_port : Nat) (key_data : List Nat)
    (has_key : Bool) (s : SupervisorState) :
    TOR_HiddenServiceResponse × SupervisorState :=
  let (r, s2) := createHiddenService port target_port key_data has_key s
  (marshalHiddenService r, s2)

/-- Modelled from the spec: internal result of the start-variant call,
before boundary marshaling flattens it. -/
inductive StartTorResult where
  | ok (address : String) (control : String)
  | err (kind : ErrorKind)
  deriving DecidableEq, Repr

/-- Modelled from the spec: boundary marshaling of a start-variant result
into the flat `TOR_StartTorResponse` struct; unlike the hidden-service
response, this struct declares an error-message field, populated on
failure. -/
def marshalStartTor : StartTorResult → TOR_StartTorResponse
  | .ok addr ctrl => ⟨true, some addr, some ctrl, none⟩
  | .err k => ⟨false, none, none, some (kindText k)⟩

/-- Modelled from the spec: the boundary call `start_tor_if_not_running`
declared in the header; ensures the service is started via the Supervisor
contract and then creates the hidden service inline, flattening the result
into `TOR_StartTorResponse` (whose error-message field carries the
diagnostic on failure). -/
def start_tor_if_not_running (data_dir : String) (key_data : List Nat)
    (has_key : Bool) (socks_port target_port : Nat) (timeout_ms : Nat)
    (outcome : BootOutcome) (s : SupervisorState) :
    TOR_StartTorResponse × SupervisorState :=
  match initOrStart ⟨data_dir, socks_port, timeout_ms⟩ outcome s with
  | (.error k, s2) => (marshalStartTor (.err k), s2)
  | (.ok (), s2) =>
    match createHiddenService target_port target_port key_data has_key s2 with
    | (.ok addr ctrl, s3) => (marshalStartTor (.ok addr ctrl), s3)
    | (.err k, s3) => (marshalStartTor (.err k), s3)

/-- Modelled from the spec: the registry `delete` operation behind the
boundary call `delete_hidden_service`.  Requires the address to exist in the
registry; returns false (not an abort) when unknown; removes the entry on
success. -/
def delete_hidden_service (address : String) (s : SupervisorState) :
    Bool × SupervisorState :=
  if s.registry.any (fun h => h.address == address) then
    (true, { s with registry := s.registry.filter (fun h => h.address != address) })
  else
    (false, s)

/-- Modelled from the spec: the boundary call `shutdown_service`.  Gracefully
tears down a running client, releasing the SOCKS listener and transitioning
the status to Stopped; safe to call when not running, where it is a no-op
returning success. -/
def shutdown_service (s : SupervisorState) : Bool × SupervisorState :=
  if s.status = .Running then
    (true, { s with status := .Stopped, listeners := 0 })
  else
    (true, s)

/-- Modelled from the spec: the six HTTP methods exposed at the boundary. -/
inductive HttpMethod where
  | get
  | post
  | put
  | del
  | head
  | options
  deriving DecidableEq, Repr

/-- Modelled from the spec: the environment outcome of the SOCKS-proxied
HTTP exchange once a connection is attempted — a response with status code
and body, a timeout, or a transport failure. -/
inductive TransportOutcome where
  | success (code : Nat) (respBody : String)
  | timedOut
  | failed (message : String)
  deriving DecidableEq, Repr

/-- Modelled from the spec: internal HTTP result, a proper sum of success
(status code and body) and error (kind and description), flattened only at
the marshaling layer. -/
inductive HttpResult where
  | ok (code : Nat) (respBody : String)
  | err (kind : ErrorKind) (message : String)
  deriving DecidableEq, Repr

/-- Modelled from the spec: parsing of the serialized header map.  The exact
wire format is not fixed by the available material; the model accepts the
empty string and comma-separated `key:value` pairs, rejecting anything
else, which suffices to expose the reject-malformed-input behaviour. -/
def parseHeaders (headers_json : String) : Option (List (String × String)) :=
  if headers_json = "" then some []
  else
    let fields := headers_json.splitOn ","
    let pairs := fields.map (fun f => f.splitOn ":")
    if pairs.all (fun p => p.length == 2) then
      some (pairs.map (fun p => (p.headD "", (p.drop 1).headD "")))
    else
      none

/-- Modelled from the spec: the common execution path of the SOCKS-routed
HTTP client (spec section 4.4), whose implementation is missing from the
sources.  Requires status Running, otherwise fails fast with
`ProxyUnavailable` without attempting any connection (never falling back to
a direct non-proxied path); rejects malformed headers before connecting;
otherwise attempts exactly one connection through the local SOCKS endpoint
and reports the transport outcome.  The second component counts network
connection attempts made by the call. -/
def torHttpRequest (_method : HttpMethod) (_url : String)
    (_reqBody : Option String) (headers_json : String) (_timeout_ms : Nat)
    (s : SupervisorState) (transport : TransportOutcome) : HttpResult × Nat :=
  if s.status = .Running then
    match parseHeaders headers_json with
    | none => (.err .MalformedHeaders (kindText .MalformedHeaders), 0)
    | some _ =>
      match transport with
      | .success code respBody => (.ok code respBody, 1)
      | .timedOut => (.err .RequestTimeout (kindText .RequestTimeout), 1)
      | .failed m => (.err .TransportError m, 1)
  else
    (.err .ProxyUnavailable (kindText .ProxyUnavailable), 0)

/-- Modelled from the spec: boundary marshaling of an HTTP result into the
flat `TOR_CHttpResponse` struct.  On success the status code (an `unsigned
short`, hence reduced modulo 2^16) and body are populated and the error
field left unset; on failure no status code or body is reported and the
error description is populated. -/
def marshalHttp : HttpResult → TOR_CHttpResponse
  | .ok code respBody => ⟨code % 65536, some respBody, none⟩
  | .err _ m => ⟨0, none, some m⟩

/-- Modelled from the spec: the boundary call `http_get` declared in the
header; GET through the common execution path, then marshaled. -/
def http_get (url headers_json : String) (timeout_ms : Nat)
    (s : SupervisorState) (tr : TransportOutcome) : TOR_CHttpResponse × Nat :=
  let (r, n) := torHttpRequest .get url none headers_json timeout_ms s tr
  (marshalHttp r, n)

/-- Modelled from the spec: the boundary call `http_post` declared in the
header; POST with a body through the common execution path. -/
def http_post (url reqBody headers_json : String) (timeout_ms : Nat)
    (s : SupervisorState) (tr : TransportOutcome) : TOR_CHttpResponse × Nat :=
  let (r, n) := torHttpRequest .post url (some reqBody) headers_json timeout_ms s tr
  (marshalHttp r, n)

/-- Modelled from the spec: the boundary call `http_put` declared in the
header; PUT with a body through the common execution path. -/
def http_put (url reqBody headers_json : String) (timeout_ms : Nat)
    (s : SupervisorState) (tr : TransportOutcome) : TOR_CHttpResponse × Nat :=
  let (r, n) := torHttpRequest .put url (some reqBody) headers_json timeout_ms s tr
  (marshalHttp r, n)

/-- Modelled from the spec: the boundary call `http_delete` declared in the
header; DELETE through the common execution path. -/
def http_delete (url headers_json : String) (timeout_ms : Nat)
    (s : SupervisorState) (tr : TransportOutcome) : TOR_CHttpResponse × Nat :=
  let (r, n) := torHttpRequest .del url none headers_json timeout_ms s tr
  (marshalHttp r, n)

/-- Modelled from the spec: the boundary call `http_head` declared in the
header; HEAD through the common execution path. -/
def http_head (url headers_json : String) (timeout_ms : Nat)
    (s : SupervisorState) (tr : TransportOutcome) : TOR_CHttpResponse × Nat :=
  let (r, n) := torHttpRequest .head url none headers_json timeout_ms s tr
  (marshalHttp r, n)

/-- Modelled from the spec: the boundary call `http_options` declared in the
header; OPTIONS through the common execution path. -/
def http_options (url headers_json : String) (timeout_ms : Nat)
    (s : SupervisorState) (tr : TransportOutcome) : TOR_CHttpResponse × Nat :=
  let (r, n) := torHttpRequest .options url none headers_json timeout_ms s tr
  (marshalHttp r, n)

/-- C1: for every HTTP operation (http_get, http_post, http_put,
http_delete, http_head, http_options) invoked while the service status is
not Running, the call fails with ProxyUnavailable and performs no network
connection attempt (attempt count 0); the client never falls back to a
direct non-proxied connection. -/
theorem http_requires_running_proxy (m : HttpMethod)
    (url reqBody headers_json : String) (b : Option String)
    (timeout_ms : Nat) (s : SupervisorState) (tr : TransportOutcome)
    (h : s.status ≠ .Running) :
    torHttpRequest m url b headers_json timeout_ms s tr
      = (.err .ProxyUnavailable (kindText .ProxyUnavailable), 0) ∧
    http_get url headers_json timeout_ms s tr
      = (⟨0, none, some (kindText .ProxyUnavailable)⟩, 0) ∧
    http_post url reqBody headers_json timeout_ms s tr
      = (⟨0, none, some (kindText .ProxyUnavailable)⟩, 0) ∧
    http_put url reqBody headers_json timeout_ms s tr
      = (⟨0, none, some (kindText .ProxyUnavailable)⟩, 0) ∧
    http_delete url headers_json timeout_ms s tr
      = (⟨0, none, some (kindText .ProxyUnavailable)⟩, 0) ∧
    http_head url headers_json timeout_ms s tr
      = (⟨0, none, some (kindText .ProxyUnavailable)⟩, 0) ∧
    http_options url headers_json timeout_ms s tr
      = (⟨0, none, some (kindText .ProxyUnavailable)⟩, 0) := by
  refine ⟨?_, ?_, ?_, ?_, ?_, ?_, ?_⟩ <;>
    simp [torHttpRequest, http_get, http_post, http_put, http_delete,
      http_head, http_options, marshalHttp, h]

/-- Witness for C1 at a concrete not-running state. -/
theorem http_requires_running_proxy_witness :
    (SupervisorState.mk .NotStarted none [] 0 0).status ≠ .Running ∧
    http_get "http://example.onion/" "" 1000
        (SupervisorState.mk .NotStarted none [] 0 0) .timedOut
      = (⟨0, none, some (kindText .ProxyUnavailable)⟩, 0) :=
  ⟨by decide,
   (http_requires_running_proxy .get "http://example.onion/" "x" "" none 1000
     (SupervisorState.mk .NotStarted none [] 0 0) .timedOut (by decide)).2.1⟩

/-- C4: for every HTTP call result, exactly one of the two outcomes is
meaningful in the marshaled `TOR_CHttpResponse`: on success the status code
and body are reported and the error field is unset; on any failure no
status code or body is reported (the fields are cleared) and an error
description is set; the error field being unset is equivalent to the
underlying result being a success. -/
theorem http_response_exclusive_outcomes (r : HttpResult)
    (url headers_json : String) (timeout_ms : Nat) (s : SupervisorState)
    (tr : TransportOutcome) :
    ((marshalHttp r).error = none ↔ ∃ code respBody, r = .ok code respBody) ∧
    ((marshalHttp r).error ≠ none →
      (marshalHttp r).status_code = 0 ∧ (marshalHttp r).body = none) ∧
    (∀ code respBody, r = .ok code respBody →
      marshalHttp r = ⟨code % 65536, some respBody, none⟩) ∧
    (∀ k msg, r = .err k msg → marshalHttp r = ⟨0, none, some msg⟩) ∧
    (http_get url headers_json timeout_ms s tr).1
      = marshalHttp (torHttpRequest .get url none headers_json timeout_ms s tr).1 := by
  refine ⟨?_, ?_, ?_, ?_, ?_⟩
  · cases r <;> simp [marshalHttp]
  · cases r <;> simp [marshalHttp]
  · intro code respBody hr; subst hr; simp [marshalHttp]
  · intro k msg hr; subst hr; simp [marshalHttp]
  · simp [http_get]

/-- Witness for C4 at concrete success and failure results. -/
theorem http_response_exclusive_outcomes_witness :
    marshalHttp (.ok 200 "hello") = ⟨200 % 65536, some "hello", none⟩ ∧
    marshalHttp (.err .RequestTimeout "request timed out")
      = ⟨0, none, some "request timed out"⟩ :=
  ⟨(http_response_exclusive_outcomes (.ok 200 "hello") "u" "" 5
      (SupervisorState.mk .NotStarted none [] 0 0) .timedOut).2.2.1 200 "hello" rfl,
   (http_response_exclusive_outcomes (.err .RequestTimeout "request timed out")
      "u" "" 5 (SupervisorState.mk .NotStarted none [] 0 0) .timedOut).2.2.2.1
      .RequestTimeout "request timed out" rfl⟩

/-- C7: shutdown_service is safe to call in any state and idempotent:
every call returns true, a second call in succession is a no-op returning
true, and when the service was Running the first call transitions the
status to Stopped and releases the SOCKS listener. -/
theorem shutdown_service_idempotent (s : SupervisorState) :
    (shutdown_service s).1 = true ∧
    shutdown_service (shutdown_service s).2 = (true, (shutdown_service s).2) ∧
    (s.status = .Running →
      (shutdown_service s).2.status = .Stopped ∧
      (shutdown_service s).2.listeners = 0) := by
  by_cases h : s.status = .Running <;>
    simp [shutdown_service, h]

/-- Witness for C7 at a concrete Running state. -/
theorem shutdown_service_idempotent_witness :
    (SupervisorState.mk .Running (some ⟨"/tmp/tor", 9050, 30000⟩) [] 1 0).status
      = .Running ∧
    (shutdown_service
        (SupervisorState.mk .Running (some ⟨"/tmp/tor", 9050, 30000⟩) [] 1 0)).2.status
      = .Stopped :=
  ⟨by decide,
   ((shutdown_service_idempotent
      (SupervisorState.mk .Running (some ⟨"/tmp/tor", 9050, 30000⟩) [] 1 0)).2.2
      (by decide)).1⟩

/-- C9: get_service_status always returns a value drawn from the stable
small integer enumeration {0,1,2,3,4} encoding the ServiceStatus states in
the order section 3 lists them (NotStarted, Bootstrapping, Running, Failed,
Stopped); the enumeration has exactly five values — settling the
cardinality at five, not four — and the encoding is injective. -/
theorem get_service_status_enumeration (s : SupervisorState) :
    get_service_status s ∈ ([0, 1, 2, 3, 4] : List Int) ∧
    statusListing.map statusCode = [0, 1, 2, 3, 4] ∧
    statusListing.length = 5 ∧
    (∀ st : ServiceStatus, st ∈ statusListing) ∧
    statusListing.Nodup ∧
    (∀ a b : ServiceStatus, statusCode a = statusCode b → a = b) := by
  refine ⟨?_, by decide, by decide, ?_, by decide, ?_⟩
  · rcases s with ⟨st, c, reg, l, k⟩
    cases st <;> simp [get_service_status, statusCode]
  · intro st; cases st <;> simp [statusListing]
  · intro a b h; cases a <;> cases b <;> simp_all [statusCode]

/-- Witness for C9 at a concrete state. -/
theorem get_service_status_enumeration_witness :
    get_service_status (SupervisorState.mk .Failed none [] 0 0)
      ∈ ([0, 1, 2, 3, 4] : List Int) :=
  (get_service_status_enumeration (SupervisorState.mk .Failed none [] 0 0)).1

/-- C6: for every address present in the hidden-service registry, deleting
it twice in succession has the first call succeed (true), the registry no
longer lists the address after the first call, and the second call fail
(false, a clean refusal, not an abort) leaving the state unchanged. -/
theorem delete_hidden_service_twice (address : String) (s : SupervisorState)
    (h : s.registry.any (fun e => e.address == address) = true) :
    (delete_hidden_service address s).1 = true ∧
    (delete_hidden_service address s).2.registry.any
      (fun e => e.address == address) = false ∧
    delete_hidden_service address (delete_hidden_service address s).2
      = (false, (delete_hidden_service address s).2) := by
  have hfilter : ((s.registry.filter (fun e => e.address != address)).any
      (fun e => e.address == address)) = false := by
    rw [List.any_eq_false]
    intro e he
    have h3 := List.mem_filter.mp he
    simpa using h3.2
  refine ⟨by simp [delete_hidden_service, h], ?_, ?_⟩
  · simp [delete_hidden_service, h, hfilter]
  · simp [delete_hidden_service, h, hfilter]

/-- Witness for C6 on a one-entry registry. -/
theorem delete_hidden_service_twice_witness :
    ((SupervisorState.mk .Running none [⟨"abc.onion", 80, 8080, [1, 2]⟩] 1 0).registry.any
      (fun e => e.address == "abc.onion")) = true ∧
    (delete_hidden_service "abc.onion"
      (SupervisorState.mk .Running none [⟨"abc.onion", 80, 8080, [1, 2]⟩] 1 0)).1 = true :=
  ⟨by rfl,
   (delete_hidden_service_twice "abc.onion"
     (SupervisorState.mk .Running none [⟨"abc.onion", 80, 8080, [1, 2]⟩] 1 0)
     (by rfl)).1⟩

/-- C8: create_hidden_service with an explicit key (has_key true) succeeds
on any two Running registry instances and produces the same onion address
in both, namely the address derived deterministically from the key alone —
independent of ports, registries or key seeds of the instances. -/
theorem create_hidden_service_key_deterministic (port1 tp1 port2 tp2 : Nat)
    (key : List Nat) (s1 s2 : SupervisorState)
    (h1 : s1.status = .Running) (h2 : s2.status = .Running) :
    (create_hidden_service port1 tp1 key true s1).1.is_success = true ∧
    (create_hidden_service port2 tp2 key true s2).1.is_success = true ∧
    (create_hidden_service port1 tp1 key true s1).1.onion_address
      = some (deriveOnionAddress key) ∧
    (create_hidden_service port2 tp2 key true s2).1.onion_address
      = some (deriveOnionAddress key) ∧
    (create_hidden_service port1 tp1 key true s1).1.onion_address
      = (create_hidden_service port2 tp2 key true s2).1.onion_address := by
  simp [create_hidden_service, createHiddenService, marshalHiddenService, h1, h2]

/-- Witness for C8 on two distinct registry instances. -/
theorem create_hidden_service_key_deterministic_witness :
    (SupervisorState.mk .Running none [] 1 0).status = .Running ∧
    (SupervisorState.mk .Running none [⟨"x.onion", 80, 80, [9]⟩] 1 42).status
      = .Running ∧
    (create_hidden_service 80 8080 [3, 5] true
        (SupervisorState.mk .Running none [] 1 0)).1.onion_address
      = (create_hidden_service 443 9090 [3, 5] true
        (SupervisorState.mk .Running none [⟨"x.onion", 80, 80, [9]⟩] 1 42)).1.onion_address :=
  ⟨by decide, by decide,
   (create_hidden_service_key_deterministic 80 8080 443 9090 [3, 5]
     (SupervisorState.mk .Running none [] 1 0)
     (SupervisorState.mk .Running none [⟨"x.onion", 80, 80, [9]⟩] 1 42)
     (by decide) (by decide)).2.2.2.2⟩

/-- C10: a failing create_hidden_service call hands the caller no
diagnostic string: the response is exactly (false, null, null), every
failure kind marshals to that same response (failures are
indistinguishable), and failure is signaled solely by is_success being
false — in contrast with the start-variant response, whose error_message
field does carry the failure kind text. -/
theorem create_failure_no_diagnostic (port tp : Nat) (key : List Nat)
    (hk : Bool) (s : SupervisorState) (h : s.status ≠ .Running) :
    create_hidden_service port tp key hk s = (⟨false, none, none⟩, s) ∧
    (∀ k : ErrorKind, marshalHiddenService (.err k) = ⟨false, none, none⟩) ∧
    (∀ k1 k2 : ErrorKind,
      marshalHiddenService (.err k1) = marshalHiddenService (.err k2)) ∧
    (∀ k : ErrorKind, (marshalStartTor (.err k)).error_message
      = some (kindText k)) := by
  refine ⟨?_, ?_, ?_, ?_⟩
  · simp [create_hidden_service, createHiddenService, marshalHiddenService, h]
  · intro k; simp [marshalHiddenService]
  · intro k1 k2; simp [marshalHiddenService]
  · intro k; simp [marshalStartTor]

/-- Witness for C10 at a concrete not-running state. -/
theorem create_failure_no_diagnostic_witness :
    (SupervisorState.mk .Stopped none [] 0 0).status ≠ .Running ∧
    create_hidden_service 80 8080 [1] true (SupervisorState.mk .Stopped none [] 0 0)
      = (⟨false, none, none⟩, SupervisorState.mk .Stopped none [] 0 0) :=
  ⟨by decide,
   (create_failure_no_diagnostic 80 8080 [1] true
     (SupervisorState.mk .Stopped none [] 0 0) (by decide)).1⟩

/-- A step that lands in Running can only have started from Bootstrapping. -/
lemma stepFn_into_running (st : ServiceStatus) (e : TorEvent)
    (h : stepFn st e = some .Running) : st = .Bootstrapping := by
  cases st <;> cases e <;> simp_all [stepFn]

/-- Along any run of the lifecycle machine, a trace containing Running
either contains Bootstrapping or started at Bootstrapping. -/
lemma runTrace_running_passes_bootstrapping (evs : List TorEvent) :
    ∀ (st : ServiceStatus) (states : List ServiceStatus),
      runTrace st evs = some states → .Running ∈ states →
      .Bootstrapping ∈ states ∨ st = .Bootstrapping := by
  induction evs with
  | nil =>
    intro st states h hr
    simp [runTrace] at h
    subst h
    simp at hr
  | cons e es ih =>
    intro st states h hr
    simp only [runTrace] at h
    cases hst : stepFn st e with
    | none => rw [hst] at h; simp at h
    | some st2 =>
      rw [hst] at h
      simp only [Option.map_eq_some'] at h
      obtain ⟨l, hl, hlst⟩ := h
      subst hlst
      rcases List.mem_cons.mp hr with hr1 | hr2
      · right
        exact stepFn_into_running st e (by rw [hst, ← hr1])
      · rcases ih st2 l hl hr2 with hb | hb
        · exact Or.inl (List.mem_cons_of_mem _ hb)
        · exact Or.inl (by rw [← hb]; exact List.mem_cons_self _ _)

/-- C5: lifecycle transitions follow only the edges
NotStarted→Bootstrapping, Bootstrapping→Running, Running→Stopped,
Bootstrapping→Failed, Running→Failed and Stopped→Bootstrapping; no
transition leaves Failed for the current instance; no single step moves
NotStarted to Running; and every run from NotStarted whose trace reaches
Running passed through Bootstrapping. -/
theorem lifecycle_transitions_only :
    (∀ st e st2, stepFn st e = some st2 →
      (st = .NotStarted ∧ e = .initRequested ∧ st2 = .Bootstrapping) ∨
      (st = .Bootstrapping ∧ e = .proxyReady ∧ st2 = .Running) ∨
      (st = .Running ∧ e = .shutdownReq ∧ st2 = .Stopped) ∨
      (st = .Bootstrapping ∧ e = .fatalError ∧ st2 = .Failed) ∨
      (st = .Running ∧ e = .fatalError ∧ st2 = .Failed) ∨
      (st = .Stopped ∧ e = .initRequested ∧ st2 = .Bootstrapping)) ∧
    (∀ e, stepFn .Failed e = none) ∧
    (∀ e st2, stepFn .NotStarted e = some st2 → st2 ≠ .Running) ∧
    (∀ evs states, runTrace .NotStarted evs = some states →
      .Running ∈ states → .Bootstrapping ∈ states) := by
  refine ⟨?_, ?_, ?_, ?_⟩
  · intro st e st2 h
    cases st <;> cases e <;> simp_all [stepFn]
  · intro e; cases e <;> rfl
  · intro e st2 h; cases e <;> simp_all [stepFn]
    exact fun hc => by simp [hc] at h
  · intro evs states h hr
    rcases runTrace_running_passes_bootstrapping evs .NotStarted states h hr with hb | hb
    · exact hb
    · simp at hb

/-- Witness for C5 on the canonical bootstrap run. -/
theorem lifecycle_transitions_only_witness :
    runTrace .NotStarted [.initRequested, .proxyReady]
      = some [.Bootstrapping, .Running] ∧
    (.Running ∈ ([.Bootstrapping, .Running] : List ServiceStatus)) ∧
    (.Bootstrapping ∈ ([.Bootstrapping, .Running] : List ServiceStatus)) :=
  ⟨by rfl, by decide,
   lifecycle_transitions_only.2.2.2 [.initRequested, .proxyReady]
     [.Bootstrapping, .Running] (by rfl) (by decide)⟩

/-- C2: starting the service from a fresh (NotStarted or Stopped) state and
then calling the same init/start operation again with an identical
configuration succeeds both times and does not create a second listener:
the listener count stays at one, and the repeated init call is a complete
no-op on the state.  Holds for both boundary entry points,
init_tor_service and start_tor_if_not_running. -/
theorem init_start_idempotent (socks_port : Nat) (data_dir : String)
    (timeout_ms : Nat) (key : List Nat) (hk : Bool) (target_port : Nat)
    (o2 o3 : BootOutcome) (s : SupervisorState)
    (h : s.status = .NotStarted ∨ s.status = .Stopped) :
    ((init_tor_service socks_port data_dir timeout_ms .ready s).1 = true ∧
     (init_tor_service socks_port data_dir timeout_ms .ready s).2.status = .Running ∧
     (init_tor_service socks_port data_dir timeout_ms .ready s).2.listeners = 1 ∧
     init_tor_service socks_port data_dir timeout_ms o2
         (init_tor_service socks_port data_dir timeout_ms .ready s).2
       = (true, (init_tor_service socks_port data_dir timeout_ms .ready s).2)) ∧
    ((start_tor_if_not_running data_dir key hk socks_port target_port
        timeout_ms .ready s).1.is_success = true ∧
     (start_tor_if_not_running data_dir key hk socks_port target_port
        timeout_ms .ready s).2.status = .Running ∧
     (start_tor_if_not_running data_dir key hk socks_port target_port
        timeout_ms .ready s).2.listeners = 1 ∧
     (start_tor_if_not_running data_dir key hk socks_port target_port timeout_ms o3
        (start_tor_if_not_running data_dir key hk socks_port target_port
          timeout_ms .ready s).2).1.is_success = true ∧
     (start_tor_if_not_running data_dir key hk socks_port target_port timeout_ms o3
        (start_tor_if_not_running data_dir key hk socks_port target_port
          timeout_ms .ready s).2).2.listeners = 1) := by
  obtain ⟨st, cf, reg, lis, seed⟩ := s
  rcases h with h | h <;>
    (dsimp only at h; subst h) <;>
    simp [init_tor_service, initOrStart, compatibleCfg,
      start_tor_if_not_running, createHiddenService, marshalStartTor]

/-- Witness for C2 from a concrete fresh state. -/
theorem init_start_idempotent_witness :
    ((SupervisorState.mk .NotStarted none [] 0 0).status = .NotStarted ∨
     (SupervisorState.mk .NotStarted none [] 0 0).status = .Stopped) ∧
    (init_tor_service 9050 "/tmp/t1" 30000 .ready
      (SupervisorState.mk .NotStarted none [] 0 0)).1 = true ∧
    (init_tor_service 9050 "/tmp/t1" 30000 .ready
      (SupervisorState.mk .NotStarted none [] 0 0)).2.listeners = 1 :=
  ⟨Or.inl (by decide),
   (init_start_idempotent 9050 "/tmp/t1" 30000 [7] true 8080 .ready .ready
     (SupervisorState.mk .NotStarted none [] 0 0) (Or.inl (by decide))).1.1,
   (init_start_idempotent 9050 "/tmp/t1" 30000 [7] true 8080 .ready .ready
     (SupervisorState.mk .NotStarted none [] 0 0) (Or.inl (by decide))).1.2.2.1⟩

/-- C3: while the service is Running with a stored configuration, an
init/start call with a conflicting configuration (different SOCKS port or
data directory) fails with AlreadyRunningConflict and leaves the whole
state — port, data directory, status and registry — unchanged, for the
Supervisor contract and both boundary entry points. -/
theorem init_start_conflict_preserves_state (cfg cfg2 : ServiceConfig)
    (o : BootOutcome) (key : List Nat) (hk : Bool) (target_port : Nat)
    (s : SupervisorState) (hrun : s.status = .Running)
    (hcfg : s.config = some cfg)
    (hconf : cfg2.socksPort ≠ cfg.socksPort ∨ cfg2.dataDir ≠ cfg.dataDir) :
    initOrStart cfg2 o s = (.error .AlreadyRunningConflict, s) ∧
    init_tor_service cfg2.socksPort cfg2.dataDir cfg2.timeoutMs o s = (false, s) ∧
    start_tor_if_not_running cfg2.dataDir key hk cfg2.socksPort target_port
        cfg2.timeoutMs o s
      = (⟨false, none, none, some (kindText .AlreadyRunningConflict)⟩, s) ∧
    (initOrStart cfg2 o s).2.status = s.status ∧
    (initOrStart cfg2 o s).2.config = s.config ∧
    (initOrStart cfg2 o s).2.registry = s.registry := by
  have hcompat : compatibleCfg cfg cfg2 = false := by
    rcases hconf with hne | hne
    · have hb : (cfg.socksPort == cfg2.socksPort) = false :=
        beq_eq_false_iff_ne.mpr (Ne.symm hne)
      simp [compatibleCfg, hb]
    · have hb : (cfg.dataDir == cfg2.dataDir) = false :=
        beq_eq_false_iff_ne.mpr (Ne.symm hne)
      simp [compatibleCfg, hb]
  obtain ⟨st, cf, reg, lis, seed⟩ := s
  dsimp only at hrun hcfg
  subst hrun
  subst hcfg
  simp [initOrStart, init_tor_service, start_tor_if_not_running,
    hcompat, marshalStartTor]

/-- Witness for C3 at a concrete running service and a conflicting port. -/
theorem init_start_conflict_preserves_state_witness :
    (SupervisorState.mk .Running (some ⟨"/d1", 9050, 1000⟩) [] 1 0).status
      = .Running ∧
    initOrStart ⟨"/d1", 9051, 1000⟩ .ready
        (SupervisorState.mk .Running (some ⟨"/d1", 9050, 1000⟩) [] 1 0)
      = (.error .AlreadyRunningConflict,
         SupervisorState.mk .Running (some ⟨"/d1", 9050, 1000⟩) [] 1 0) :=
  ⟨rfl,
   (init_start_conflict_preserves_state ⟨"/d1", 9050, 1000⟩ ⟨"/d1", 9051, 1000⟩
     .ready [] true 80
     (SupervisorState.mk .Running (some ⟨"/d1", 9050, 1000⟩) [] 1 0)
     rfl rfl (Or.inl (by decide))).1⟩

end TorFFI
